import Mathlib

/-!
Verification of the timber stumpage price harmonization pipeline.

The development embeds, as executable Lean definitions, the core of:
  - scripts/combine_stumpage_data.py (schema normalizer, unification engine),
  - scripts/unit_conversion_factors.py (conversion factor registry),
  - scripts/integrate_usfs_pnw.py (USFS PNW deduplication),
  - scripts/parse_nh_stumpage.py (table row classifier),
and proves the stated properties of the specification against them.

Text cells are modelled as `String` (Lean strings are lists of characters),
with Python's `str.lower` / `str.upper` / `str.strip` and substring tests
embedded explicitly for the ASCII data the pipeline handles.  Numeric price
values are modelled as exact rationals.
-/

/-- Python whitespace characters stripped by `str.strip()` (ASCII range). -/
def wsB (c : Char) : Bool :=
  c = ' ' || c = '\t' || c = '\n' || c = '\r' || c = '\x0b' || c = '\x0c'

/-- Python `str.lower()` on one character (ASCII range, as in the data). -/
def asciiLower (c : Char) : Char :=
  if c = 'A' then 'a' else if c = 'B' then 'b' else if c = 'C' then 'c'
  else if c = 'D' then 'd' else if c = 'E' then 'e' else if c = 'F' then 'f'
  else if c = 'G' then 'g' else if c = 'H' then 'h' else if c = 'I' then 'i'
  else if c = 'J' then 'j' else if c = 'K' then 'k' else if c = 'L' then 'l'
  else if c = 'M' then 'm' else if c = 'N' then 'n' else if c = 'O' then 'o'
  else if c = 'P' then 'p' else if c = 'Q' then 'q' else if c = 'R' then 'r'
  else if c = 'S' then 's' else if c = 'T' then 't' else if c = 'U' then 'u'
  else if c = 'V' then 'v' else if c = 'W' then 'w' else if c = 'X' then 'x'
  else if c = 'Y' then 'y' else if c = 'Z' then 'z' else c

/-- Python `str.upper()` on one character (ASCII range, as in the data). -/
def asciiUpper (c : Char) : Char :=
  if c = 'a' then 'A' else if c = 'b' then 'B' else if c = 'c' then 'C'
  else if c = 'd' then 'D' else if c = 'e' then 'E' else if c = 'f' then 'F'
  else if c = 'g' then 'G' else if c = 'h' then 'H' else if c = 'i' then 'I'
  else if c = 'j' then 'J' else if c = 'k' then 'K' else if c = 'l' then 'L'
  else if c = 'm' then 'M' else if c = 'n' then 'N' else if c = 'o' then 'O'
  else if c = 'p' then 'P' else if c = 'q' then 'Q' else if c = 'r' then 'R'
  else if c = 's' then 'S' else if c = 't' then 'T' else if c = 'u' then 'U'
  else if c = 'v' then 'V' else if c = 'w' then 'W' else if c = 'x' then 'X'
  else if c = 'y' then 'Y' else if c = 'z' then 'Z' else c

/-- Python `str.lower()`. -/
def lowerStr (s : String) : String := String.mk (s.data.map asciiLower)

/-- Python `str.upper()`. -/
def upperStr (s : String) : String := String.mk (s.data.map asciiUpper)

/-- Python `str.strip()`: remove whitespace from both ends. -/
def trimStr (s : String) : String :=
  String.mk ((s.data.dropWhile wsB).rdropWhile wsB)

/-- Substring test on character lists: `containsSub n h = true` iff `n`
occurs contiguously inside `h` (Python `n in h`). -/
def containsSub (needle : List Char) : List Char → Bool
  | [] => needle.isEmpty
  | c :: t => needle.isPrefixOf (c :: t) || containsSub needle t

/-- Python `needle in hay` substring test on strings. -/
def containsStr (hay needle : String) : Bool := containsSub needle.data hay.data

/-- Python `any(x in s for x in keys)`. -/
def anyContains (s : String) (keys : List String) : Bool :=
  keys.any (fun k => containsStr s k)

/-! ## Schema normalizer (combine_stumpage_data.py lines 44-152) -/

/-- `standardize_product_type` of combine_stumpage_data.py: ordered
first-match-wins substring rules over the lowercased, stripped text;
`None` (pandas NA) maps to `None`. -/
def standardize_product_type : Option String → Option String
  | none => none
  | some s =>
    let product := trimStr (lowerStr s)
    some (
      if anyContains product ["sawtimber", "sawlog", "saw log", "sawlogs"] then
        if containsStr product "large" then "sawtimber_large"
        else if containsStr product "small" then "sawtimber_small"
        else "sawtimber"
      else if product = "log" || product = "logs"
          || containsStr product "hardwood_sawlog" || containsStr product "softwood_sawlog" then
        "sawtimber"
      else if product = "mbf" then "sawtimber"
      else if containsStr product "pulpwood" || containsStr product "pulp" then "pulpwood"
      else if containsStr product "chip" && containsStr product "saw" then "chip-n-saw"
      else if containsStr product "veneer" then "veneer"
      else if containsStr product "pole" then "poles"
      else if containsStr product "firewood" || containsStr product "fuelwood"
          || (containsStr product "fuel" && !containsStr product "chip") then
        "firewood"
      else if containsStr product "fiber" then "fiber_fuel"
      else if containsStr product "biomass" then "biomass"
      else if containsStr product "bolt" then "boltwood"
      else if containsStr product "stud" then "studwood"
      else if containsStr product "cordwood" || product = "cord" then "cordwood"
      else if containsStr product "post" then "posts"
      else if containsStr product "crosstie" || containsStr product "tie" then "crossties"
      else if containsStr product "plylog" then "plylogs"
      else if containsStr product "t-wood" || containsStr product "topwood" then "topwood"
      else if containsStr product "fuelchip" then "fuelchips"
      else if containsStr product "stumpage" then "sawtimber"
      else if containsStr product "total" || containsStr product "index" then "total_index"
      else product)

/-- `standardize_unit` of combine_stumpage_data.py: maps free text to one of
the canonical units, passing unmatched text through lowercased and stripped;
`None` maps to `None`. -/
def standardize_unit : Option String → Option String
  | none => none
  | some s =>
    let u := trimStr (lowerStr s)
    if containsStr u "mbf" || containsStr u "thousand board" then some "$/mbf"
    else if containsStr u "cord" then some "$/cord"
    else if containsStr u "ton" then some "$/ton"
    else some u

example : standardize_product_type (some "Small Pine Sawtimber") = some "sawtimber_small" := by decide
example : standardize_product_type (some "pine pulpwood") = some "pulpwood" := by decide
example : standardize_product_type (some "mystery_product_xyz") = some "mystery_product_xyz" := by decide
example : standardize_product_type (some "fiber") = some "fiber_fuel" := by decide
example : standardize_product_type (some "fiber_fuel") = some "firewood" := by decide
example : standardize_unit (some "Tons") = some "$/ton" := by decide
example : standardize_unit (some "per MBF") = some "$/mbf" := by decide
example : standardize_unit (some "index") = some "index" := by decide

/-! ## Conversion factor registry (unit_conversion_factors.py lines 239-290) -/

/-- `get_cord_to_ton_factor`: cord-to-ton factor selected by keyword-based
species-group classification; the trailing default is the mixed-hardwood
factor 2.80.  The `product_type` argument is accepted but unused, as in the
source. -/
def get_cord_to_ton_factor (species : String) (_product_type : Option String) : ℚ :=
  let sl := lowerStr species
  if anyContains sl ["pine", "spruce", "fir", "hemlock", "cedar", "softwood"] then mkRat 267 100
  else if anyContains sl ["oak", "hickory", "beech", "hard maple", "sugar maple", "walnut", "cherry"] then mkRat 29 10
  else if anyContains sl ["poplar", "tulip", "sweetgum", "basswood", "soft maple", "aspen", "cottonwood"] then mkRat 27 10
  else if anyContains sl ["hardwood", "mixed", "ash", "birch", "elm"] then mkRat 28 10
  else mkRat 28 10

/-- `get_mbf_to_ton_factor`: MBF-to-ton factor, 7.0 for softwood keywords and
the hardwood average 8.5 for everything else. -/
def get_mbf_to_ton_factor (species : String) (_product_type : Option String) : ℚ :=
  let sl := lowerStr species
  if anyContains sl ["pine", "spruce", "fir", "hemlock", "cedar", "softwood"] then 7
  else mkRat 17 2

/-! ## Canonical record and unification engine (combine_stumpage_data.py) -/

/-- The unified schema of combine_stumpage_data.py (UNIFIED_COLUMNS).  Numeric
fields are exact rationals; nullable fields are `Option`. -/
structure Record where
  source : String
  year : Int
  quarter : Option Int
  period_type : String
  region : Option String
  county : Option String
  species : Option String
  product_type : Option String
  price_avg : Option ℚ
  price_low : Option ℚ
  price_high : Option ℚ
  unit : Option String
  price_per_ton : Option ℚ
  conversion_factor : Option ℚ
  sample_size : Option ℚ
  notes : Option String
deriving DecidableEq, Repr

/-- The unit text read by the conversion pass:
`str(row['unit']).lower() if pd.notna(row['unit']) else ''`. -/
def unitLowered (u : Option String) : String :=
  match u with
  | some s => lowerStr s
  | none => ""

/-- The species text read by the conversion pass:
`str(row['species']) if pd.notna(row['species']) else ''`. -/
def speciesText (sp : Option String) : String :=
  match sp with
  | some s => s
  | none => ""

/-- `get_conversion_factor` of combine_stumpage_data.py main (lines 640-653):
branch on the lowercased unit; `index` and unrecognized units yield `None`. -/
def get_conversion_factor (r : Record) : Option ℚ :=
  let u := unitLowered r.unit
  let sp := speciesText r.species
  if containsStr u "ton" then some 1
  else if containsStr u "cord" then some (get_cord_to_ton_factor sp r.product_type)
  else if containsStr u "mbf" then some (get_mbf_to_ton_factor sp r.product_type)
  else if containsStr u "index" then none
  else none

/-- `convert_price` of combine_stumpage_data.py main (lines 655-667), applied
to the `price_avg` column: null price or null factor yields null. -/
def convert_price (r : Record) : Option ℚ :=
  match r.price_avg with
  | none => none
  | some p =>
    match r.conversion_factor with
    | none => none
    | some f =>
      let u := unitLowered r.unit
      if containsStr u "ton" then some p
      else if containsStr u "cord" || containsStr u "mbf" then some (p / f)
      else none

/-- The two derived-field passes of the unification engine applied to one
record: fill `conversion_factor`, then `price_per_ton`. -/
def convertRecord (r : Record) : Record :=
  let r1 := { r with conversion_factor := get_conversion_factor r }
  { r1 with price_per_ton := convert_price r1 }

/-- The unification engine of combine_stumpage_data.py main (lines 628-686):
concatenate the adapter outputs, compute the `conversion_factor` column, then
the `price_per_ton` column, and emit the rows in order.  The source performs
no deduplication. -/
def unifyRecords (adapterOutputs : List (List Record)) : List Record :=
  ((adapterOutputs.flatten.map fun r => { r with conversion_factor := get_conversion_factor r }).map
    fun r => { r with price_per_ton := convert_price r })

/-- The uniqueness key named by the specification:
`(source, year, quarter, region, species, product_type)`. -/
def recordKey (r : Record) :
    String × Int × Option Int × Option String × Option String × Option String :=
  (r.source, r.year, r.quarter, r.region, r.species, r.product_type)

/-- Count of non-null price fields, the completeness measure named by the
specification's deduplication tie-break. -/
def priceFieldCount (r : Record) : Nat :=
  (if r.price_avg.isSome then 1 else 0) + (if r.price_low.isSome then 1 else 0)
    + (if r.price_high.isSome then 1 else 0)

/-! ## Michigan source adapter (combine_stumpage_data.py lines 155-179) -/

/-- One row of the pre-parsed Michigan CSV consumed by `load_michigan`. -/
structure MIRow where
  year : Int
  quarter : Option Int
  market_area : Option String
  species_group : Option String
  product : Option String
  avg_bid_index : Option ℚ
  volume : Option ℚ
deriving DecidableEq, Repr

/-- `load_michigan`: every record is tagged source `MI`, unit `index`, with
the SAW / PULP / other product mapping of the source; the derived price
columns are absent (null) until the conversion pass. -/
def load_michigan (rows : List MIRow) : List Record :=
  rows.map fun row =>
    { source := "MI"
      year := row.year
      quarter := row.quarter
      period_type := "quarterly"
      region := row.market_area
      county := none
      species := row.species_group
      product_type := some (if row.product = some "SAW" then "sawtimber"
        else if row.product = some "PULP" then "pulpwood" else "total_index")
      price_avg := row.avg_bid_index
      price_low := none
      price_high := none
      unit := some "index"
      price_per_ton := none
      conversion_factor := none
      sample_size := row.volume
      notes := some "Price index (base=100), not actual price" }

/-! ## USFS PNW integration (integrate_usfs_pnw.py lines 221-227) -/

/-- The deduplication key used by integrate_usfs_pnw.py:
`subset=["source", "year", "species", "region"]`. -/
def usfsKey (r : Record) : String × Int × Option String × Option String :=
  (r.source, r.year, r.species, r.region)

/-- pandas `drop_duplicates(..., keep="last")`: a row is kept exactly when no
later row has the same key; kept rows stay in order. -/
def dedupKeepLast {β : Type} [DecidableEq β] (key : Record → β) : List Record → List Record
  | [] => []
  | x :: xs =>
    if xs.any (fun y => decide (key y = key x)) then dedupKeepLast key xs
    else x :: dedupKeepLast key xs

/-! ## Table row classifier (parse_nh_stumpage.py lines 71-217) -/

/-- Digit run to a natural number. -/
def digitsToNat (ds : List Char) : Nat :=
  ds.foldl (fun a c => 10 * a + (c.toNat - 48)) 0

/-- Optional exponent suffix of a Python float literal: empty input means no
scaling, `e`/`E` with a signed digit run gives `(negated?, magnitude)`,
anything else fails. -/
def parseExpPart (cs : List Char) : Option (Bool × Nat) :=
  match cs with
  | [] => some (false, 0)
  | c :: rest =>
    if c = 'e' || c = 'E' then
      let signedRest : Bool × List Char :=
        match rest with
        | '+' :: r => (false, r)
        | '-' :: r => (true, r)
        | r => (false, r)
      let ds := signedRest.2.takeWhile Char.isDigit
      let r3 := signedRest.2.dropWhile Char.isDigit
      if ds.isEmpty || !r3.isEmpty then none
      else some (signedRest.1, digitsToNat ds)
    else none

/-- Python `float(s)` on a stripped string, as the exact rational the literal
denotes: optional sign, decimal mantissa, optional exponent, assembled as one
integer fraction.  (Python additionally accepts `inf`, `nan` and digit
underscores; price text never uses those forms.) -/
def parseFloat (s : String) : Option ℚ :=
  let signed : Bool × List Char :=
    match s.data with
    | '-' :: r => (true, r)
    | '+' :: r => (false, r)
    | r => (false, r)
  let ip := signed.2.takeWhile Char.isDigit
  let rest := signed.2.dropWhile Char.isDigit
  let mantissa : Option (Nat × Nat × List Char) :=
    match rest with
    | '.' :: r2 =>
      let fp := r2.takeWhile Char.isDigit
      let r3 := r2.dropWhile Char.isDigit
      if ip.isEmpty && fp.isEmpty then none
      else some (digitsToNat ip * 10 ^ fp.length + digitsToNat fp, 10 ^ fp.length, r3)
    | _ => if ip.isEmpty then none else some (digitsToNat ip, 1, rest)
  match mantissa with
  | none => none
  | some (n, d, r) =>
    match parseExpPart r with
    | none => none
    | some (eneg, e) =>
      let num : Int := if signed.1 then -(n : Int) else (n : Int)
      if eneg then some (mkRat num (d * 10 ^ e))
      else some (mkRat (num * (10 : Int) ^ e) d)

/-- `clean_price_value` of parse_nh_stumpage.py (lines 71-89): empty or
blank text yields null; otherwise strip every `$` and `,`, strip whitespace,
and parse, yielding null instead of raising on failure. -/
def clean_price_value (value : String) : Option ℚ :=
  if value.data.isEmpty || trimStr value = "" then none
  else parseFloat (trimStr (String.mk (value.data.filter fun c => !(c = '$' || c = ','))))

/-- Python cell truthiness: a present, non-empty string. -/
def cellTruthy : Option String → Bool
  | none => false
  | some s => !s.data.isEmpty

/-- The text of a cell; only read behind a truthiness guard. -/
def cellStr : Option String → String
  | none => ""
  | some s => s

/-- One header-keyword test of parse_nh_stumpage.py lines 147-150: a truthy
cell whose uppercased text contains SPECIES, PRODUCT, LOW or HIGH. -/
def headerCellB (c : Option String) : Bool :=
  cellTruthy c && anyContains (upperStr (cellStr c)) ["SPECIES", "PRODUCT", "LOW", "HIGH"]

/-- Header-row detection: some cell matches a header keyword. -/
def isHeaderRow (row : List (Option String)) : Bool := row.any headerCellB

/-- Blank-cell test of line 163: absent, empty, or whitespace-only. -/
def blankB (c : Option String) : Bool :=
  !cellTruthy c || trimStr (cellStr c) = ""

/-- The species cell (line 168): stripped text of the first cell when truthy,
else empty. -/
def speciesOf (row : List (Option String)) : String :=
  match row.getD 0 none with
  | none => ""
  | some s => trimStr s

/-- Reject-keyword test of line 171 on the uppercased species text. -/
def keywordRowB (species : String) : Bool :=
  anyContains (upperStr species)
    ["SPECIES", "PRODUCT", "AVERAGE", "RANGE", "NORTHERN", "CENTRAL", "SOUTHERN", "TYPE"]

/-- A price cell (lines 187-198): absent or empty yields null, otherwise
`clean_price_value` of its text. -/
def cellPrice (c : Option String) : Option ℚ :=
  match c with
  | none => none
  | some s => if s.data.isEmpty then none else clean_price_value s

/-- A text cell read positionally (lines 186, 189, 194): stripped text when
truthy, else empty. -/
def cellTrim (c : Option String) : String :=
  match c with
  | none => ""
  | some s => trimStr s

/-- The positional, arity-dependent field extraction of lines 184-198:
`(product_type, price_low, price_high, unit)` for a row of at least 3 cells.
5 or more cells: species, product, low, high, unit; exactly 4: product is
inherited (empty here); exactly 3: no unit either. -/
def rowFields (row : List (Option String)) : String × Option ℚ × Option ℚ × String :=
  if row.length ≥ 5 then
    (cellTrim (row.getD 1 none), cellPrice (row.getD 2 none),
      cellPrice (row.getD 3 none), cellTrim (row.getD 4 none))
  else if row.length ≥ 4 then
    ("", cellPrice (row.getD 1 none), cellPrice (row.getD 2 none), cellTrim (row.getD 3 none))
  else
    ("", cellPrice (row.getD 1 none), cellPrice (row.getD 2 none), "")

/-- One classified data row of the New Hampshire tables. -/
structure NHRecord where
  species : String
  product_type : String
  price_low : Option ℚ
  price_high : Option ℚ
  unit : String
deriving DecidableEq, Repr

/-- The per-row classification of parse_nh_stumpage.py lines 158-215: skip
short, blank, header-like and priceless rows, otherwise extract fields
positionally.  (The constant per-document metadata — year, period, region —
is threaded unchanged into every record by the source and is omitted.) -/
def classifyRow (row : List (Option String)) : Option NHRecord :=
  if row.length < 3 then none
  else if !row.any cellTruthy || row.all blankB then none
  else
    let species := speciesOf row
    if keywordRowB species then none
    else if species = "" then none
    else
      let f := rowFields row
      if f.2.1 = none ∧ f.2.2.1 = none then none
      else some ⟨species, f.1, f.2.1, f.2.2.1, f.2.2.2⟩

/-- Whole-table processing of lines 140-215: a table with fewer than two rows
or without a header row yields no records; otherwise every row after the
first header row is classified. -/
def processTable (table : List (List (Option String))) : List NHRecord :=
  if table.length < 2 then []
  else
    match table.findIdx? isHeaderRow with
    | none => []
    | some i => (table.drop (i + 1)).filterMap classifyRow

example : clean_price_value "$250.00" = some 250 := by decide
example : clean_price_value "1,234.5" = some (mkRat 2469 2) := by decide
example : clean_price_value "n/a" = none := by decide
example : classifyRow [some "White Oak", some "Sawlogs", some "250.00", some "350.00", some "MBF"]
    = some ⟨"White Oak", "Sawlogs", some 250, some 350, "MBF"⟩ := by decide

/-! ## Properties of the string primitives -/

@[simp] theorem data_mk (l : List Char) : (String.mk l).data = l := rfl

theorem asciiLower_cases (c : Char) :
    asciiLower c = c ∨ c ∈
      ['A', 'B', 'C', 'D', 'E', 'F', 'G', 'H', 'I', 'J', 'K', 'L', 'M',
       'N', 'O', 'P', 'Q', 'R', 'S', 'T', 'U', 'V', 'W', 'X', 'Y', 'Z'] := by
  by_cases h : c ∈
      ['A', 'B', 'C', 'D', 'E', 'F', 'G', 'H', 'I', 'J', 'K', 'L', 'M',
       'N', 'O', 'P', 'Q', 'R', 'S', 'T', 'U', 'V', 'W', 'X', 'Y', 'Z']
  · exact Or.inr h
  · left
    simp only [List.mem_cons, List.not_mem_nil, or_false, not_or] at h
    obtain ⟨h1, h2, h3, h4, h5, h6, h7, h8, h9, h10, h11, h12, h13, h14, h15, h16, h17,
      h18, h19, h20, h21, h22, h23, h24, h25, h26⟩ := h
    unfold asciiLower
    rw [if_neg h1, if_neg h2, if_neg h3, if_neg h4, if_neg h5, if_neg h6, if_neg h7,
      if_neg h8, if_neg h9, if_neg h10, if_neg h11, if_neg h12, if_neg h13, if_neg h14,
      if_neg h15, if_neg h16, if_neg h17, if_neg h18, if_neg h19, if_neg h20, if_neg h21,
      if_neg h22, if_neg h23, if_neg h24, if_neg h25, if_neg h26]

theorem asciiLower_idem (c : Char) : asciiLower (asciiLower c) = asciiLower c := by
  rcases asciiLower_cases c with h | h
  · rw [h]; exact h
  · simp only [List.mem_cons, List.not_mem_nil, or_false] at h
    rcases h with rfl|rfl|rfl|rfl|rfl|rfl|rfl|rfl|rfl|rfl|rfl|rfl|rfl|rfl|rfl|rfl|rfl|rfl|rfl|rfl|rfl|rfl|rfl|rfl|rfl|rfl <;> decide

theorem wsB_asciiLower (c : Char) : wsB (asciiLower c) = wsB c := by
  rcases asciiLower_cases c with h | h
  · rw [h]
  · simp only [List.mem_cons, List.not_mem_nil, or_false] at h
    rcases h with rfl|rfl|rfl|rfl|rfl|rfl|rfl|rfl|rfl|rfl|rfl|rfl|rfl|rfl|rfl|rfl|rfl|rfl|rfl|rfl|rfl|rfl|rfl|rfl|rfl|rfl <;> decide

theorem lowerStr_lowerStr (s : String) : lowerStr (lowerStr s) = lowerStr s := by
  simp [lowerStr, List.map_map, Function.comp_def, asciiLower_idem]

theorem map_dropWhile_comm (f : Char → Char) (p : Char → Bool) (l : List Char)
    (h : ∀ c, p (f c) = p c) : (l.map f).dropWhile p = (l.dropWhile p).map f := by
  have hcomp : (p ∘ f) = p := funext h
  simp only [List.dropWhile_map, hcomp]

theorem map_rdropWhile_comm (f : Char → Char) (p : Char → Bool) (l : List Char)
    (h : ∀ c, p (f c) = p c) : (l.map f).rdropWhile p = (l.rdropWhile p).map f := by
  have hcomp : (p ∘ f) = p := funext h
  simp only [List.rdropWhile, ← List.map_reverse, List.dropWhile_map, hcomp]

theorem lowerStr_trimStr (s : String) : lowerStr (trimStr s) = trimStr (lowerStr s) := by
  simp only [lowerStr, trimStr, data_mk]
  congr 1
  rw [map_dropWhile_comm _ _ _ wsB_asciiLower, map_rdropWhile_comm _ _ _ wsB_asciiLower]

theorem dropWhile_rdropWhile_dropWhile (p : Char → Bool) (l : List Char) :
    ((l.dropWhile p).rdropWhile p).dropWhile p = (l.dropWhile p).rdropWhile p := by
  rcases h0 : ((l.dropWhile p).rdropWhile p) with _ | ⟨a, t⟩
  · rfl
  · rw [← h0]
    rw [List.dropWhile_eq_self_iff]
    intro hl
    have hpre : (l.dropWhile p).rdropWhile p <+: l.dropWhile p := List.rdropWhile_prefix p _
    have hlen : 0 < (l.dropWhile p).length :=
      lt_of_lt_of_le hl (hpre.length_le)
    have hget := hpre.getElem (n := 0) hl
    rw [List.get_eq_getElem, hget]
    have := List.dropWhile_get_zero_not (p := p) l hlen
    rw [List.get_eq_getElem] at this
    exact this

theorem trimStr_trimStr (s : String) : trimStr (trimStr s) = trimStr s := by
  simp only [trimStr, dropWhile_rdropWhile_dropWhile, List.rdropWhile_idempotent]

/-- The normalization applied by both standardizers: lowercase then strip. -/
def normText (s : String) : String := trimStr (lowerStr s)

theorem normText_idem (s : String) : normText (normText s) = normText s := by
  simp only [normText]
  rw [lowerStr_trimStr, lowerStr_lowerStr, trimStr_trimStr]

theorem lowerStr_normText (s : String) : lowerStr (normText s) = normText s := by
  simp only [normText]
  rw [lowerStr_trimStr, lowerStr_lowerStr]

/-! ## Properties of the schema normalizer -/

/-- The disjunction of every rule condition of `standardize_product_type`,
in source order; `false` means the normalized text falls through to the
passthrough case. -/
def productRuleMatches (p : String) : Bool :=
  anyContains p ["sawtimber", "sawlog", "saw log", "sawlogs"]
  || (p = "log" || p = "logs"
      || containsStr p "hardwood_sawlog" || containsStr p "softwood_sawlog")
  || p = "mbf"
  || (containsStr p "pulpwood" || containsStr p "pulp")
  || (containsStr p "chip" && containsStr p "saw")
  || containsStr p "veneer"
  || containsStr p "pole"
  || (containsStr p "firewood" || containsStr p "fuelwood"
      || (containsStr p "fuel" && !containsStr p "chip"))
  || containsStr p "fiber"
  || containsStr p "biomass"
  || containsStr p "bolt"
  || containsStr p "stud"
  || (containsStr p "cordwood" || p = "cord")
  || containsStr p "post"
  || (containsStr p "crosstie" || containsStr p "tie")
  || containsStr p "plylog"
  || (containsStr p "t-wood" || containsStr p "topwood")
  || containsStr p "fuelchip"
  || containsStr p "stumpage"
  || (containsStr p "total" || containsStr p "index")

/-- The disjunction of every rule condition of `standardize_unit`. -/
def unitRuleMatches (u : String) : Bool :=
  (containsStr u "mbf" || containsStr u "thousand board")
  || containsStr u "cord" || containsStr u "ton"

theorem product_passthrough (s : String)
    (h : productRuleMatches (normText s) = false) :
    standardize_product_type (some s) = some (normText s) := by
  simp only [productRuleMatches, normText] at h
  obtain ⟨h, h20⟩ := Bool.or_eq_false_iff.mp h
  obtain ⟨h, h19⟩ := Bool.or_eq_false_iff.mp h
  obtain ⟨h, h18⟩ := Bool.or_eq_false_iff.mp h
  obtain ⟨h, h17⟩ := Bool.or_eq_false_iff.mp h
  obtain ⟨h, h16⟩ := Bool.or_eq_false_iff.mp h
  obtain ⟨h, h15⟩ := Bool.or_eq_false_iff.mp h
  obtain ⟨h, h14⟩ := Bool.or_eq_false_iff.mp h
  obtain ⟨h, h13⟩ := Bool.or_eq_false_iff.mp h
  obtain ⟨h, h12⟩ := Bool.or_eq_false_iff.mp h
  obtain ⟨h, h11⟩ := Bool.or_eq_false_iff.mp h
  obtain ⟨h, h10⟩ := Bool.or_eq_false_iff.mp h
  obtain ⟨h, h9⟩ := Bool.or_eq_false_iff.mp h
  obtain ⟨h, h8⟩ := Bool.or_eq_false_iff.mp h
  obtain ⟨h, h7⟩ := Bool.or_eq_false_iff.mp h
  obtain ⟨h, h6⟩ := Bool.or_eq_false_iff.mp h
  obtain ⟨h, h5⟩ := Bool.or_eq_false_iff.mp h
  obtain ⟨h, h4⟩ := Bool.or_eq_false_iff.mp h
  obtain ⟨h, h3⟩ := Bool.or_eq_false_iff.mp h
  obtain ⟨h1, h2⟩ := Bool.or_eq_false_iff.mp h
  have hm : trimStr (lowerStr s) ≠ "mbf" := by simpa using h3
  simp only [standardize_product_type, normText]
  simp only [h1, h2, h3, h4, h5, h6, h7, h8, h9, h10, h11, h12, h13, h14, h15, h16, h17,
    h18, h19, h20]
  simp [hm]

theorem unit_passthrough (s : String)
    (h : unitRuleMatches (normText s) = false) :
    standardize_unit (some s) = some (normText s) := by
  simp only [unitRuleMatches, normText, Bool.or_eq_false_iff] at h
  simp only [standardize_unit, normText]
  split_ifs <;> simp_all

theorem standardize_unit_idem (u : Option String) :
    standardize_unit (standardize_unit u) = standardize_unit u := by
  match u with
  | none => rfl
  | some s =>
    show standardize_unit (standardize_unit (some s)) = standardize_unit (some s)
    conv => rw [standardize_unit]
    split_ifs with h1 h2 h3
    · decide
    · decide
    · decide
    · rw [standardize_unit]
      have hn : trimStr (lowerStr (trimStr (lowerStr s))) = trimStr (lowerStr s) := by
        have := normText_idem s
        simpa [normText] using this
      rw [hn, if_neg h1, if_neg h2, if_neg h3]

/-! ## Properties of the converter and unification engine -/

theorem cord_factor_ne_one (s : String) (p : Option String) :
    get_cord_to_ton_factor s p ≠ 1 := by
  simp only [get_cord_to_ton_factor]
  split_ifs <;> decide

theorem mbf_factor_ne_one (s : String) (p : Option String) :
    get_mbf_to_ton_factor s p ≠ 1 := by
  simp only [get_mbf_to_ton_factor]
  split_ifs <;> decide

theorem convertRecord_factor (r : Record) :
    (convertRecord r).conversion_factor = get_conversion_factor r := rfl

theorem convertRecord_unit (r : Record) : (convertRecord r).unit = r.unit := rfl

theorem convertRecord_source (r : Record) : (convertRecord r).source = r.source := rfl

theorem convertRecord_price_avg (r : Record) : (convertRecord r).price_avg = r.price_avg := rfl

theorem recordKey_convertRecord (r : Record) : recordKey (convertRecord r) = recordKey r := rfl

theorem unify_eq_map (outs : List (List Record)) :
    unifyRecords outs = outs.flatten.map convertRecord := by
  simp only [unifyRecords, List.map_map]
  rfl

/-- A record whose unit text is `index` gets a null factor and a null
standardized price from the conversion pass. -/
theorem index_convert (r : Record) (h : r.unit = some "index") :
    (convertRecord r).conversion_factor = none ∧ (convertRecord r).price_per_ton = none := by
  have h1 : get_conversion_factor r = none := by
    simp only [get_conversion_factor, h]
    rw [if_neg (by decide), if_neg (by decide), if_neg (by decide), if_pos (by decide)]
  refine ⟨h1, ?_⟩
  show convert_price { r with conversion_factor := get_conversion_factor r } = none
  rw [h1]
  cases hpa : r.price_avg <;> simp [convert_price, hpa]

/-! ## Claim C5 -/

/-- Claim C5: for every record in the unified dataset written by the
unification engine, `unit = index` implies both `price_per_ton` and
`conversion_factor` are null — index-valued records are never converted to
dollars per ton. -/
theorem claim_C5_index_invariant (outs : List (List Record)) (r : Record)
    (hr : r ∈ unifyRecords outs) (hu : r.unit = some "index") :
    r.price_per_ton = none ∧ r.conversion_factor = none := by
  rw [unify_eq_map] at hr
  obtain ⟨x, _, rfl⟩ := List.mem_map.mp hr
  have hx : x.unit = some "index" := by rwa [convertRecord_unit] at hu
  have h := index_convert x hx
  exact ⟨h.2, h.1⟩

/-- A Michigan-style index record used to instantiate claim C5. -/
def sampleIndexRecord : Record :=
  { source := "MI", year := 2020, quarter := some 1, period_type := "quarterly"
    region := some "western u.p.", county := none, species := some "aspen"
    product_type := some "pulpwood", price_avg := some 104, price_low := none
    price_high := none, unit := some "index", price_per_ton := none
    conversion_factor := none, sample_size := none, notes := none }

theorem claim_C5_witness :
    (convertRecord sampleIndexRecord).price_per_ton = none
      ∧ (convertRecord sampleIndexRecord).conversion_factor = none :=
  claim_C5_index_invariant [[sampleIndexRecord]] (convertRecord sampleIndexRecord)
    (by decide) (by decide)

/-! ## Claim C10 -/

/-- Claim C10: every record produced by the Michigan adapter carries
`source = MI` and `unit = index`, and therefore after the conversion pass
every Michigan record in the unified dataset has a null conversion factor
and a null price per ton — Michigan contributes only index values, never
absolute dollars-per-ton prices. -/
theorem claim_C10_michigan_index (rows : List MIRow) :
    (∀ m ∈ load_michigan rows, m.source = "MI" ∧ m.unit = some "index")
      ∧ (∀ r ∈ unifyRecords [load_michigan rows],
          r.source = "MI" ∧ r.unit = some "index"
            ∧ r.conversion_factor = none ∧ r.price_per_ton = none) := by
  constructor
  · intro m hm
    obtain ⟨row, _, rfl⟩ := List.mem_map.mp hm
    exact ⟨rfl, rfl⟩
  · intro r hr
    rw [unify_eq_map] at hr
    obtain ⟨x, hx, rfl⟩ := List.mem_map.mp hr
    simp only [List.flatten, List.append_nil] at hx
    obtain ⟨row, _, rfl⟩ := List.mem_map.mp hx
    refine ⟨rfl, rfl, ?_, ?_⟩
    · exact (index_convert _ rfl).1
    · exact (index_convert _ rfl).2

/-- A Michigan CSV row used to instantiate claim C10. -/
def sampleMIRow : MIRow :=
  { year := 2020, quarter := some 1, market_area := some "western u.p."
    species_group := some "aspen", product := some "PULP"
    avg_bid_index := some 104, volume := some 1000 }

/-- The canonical record the Michigan adapter produces from `sampleMIRow`. -/
def sampleMIRecord : Record :=
  { source := "MI", year := 2020, quarter := some 1, period_type := "quarterly"
    region := some "western u.p.", county := none, species := some "aspen"
    product_type := some "pulpwood", price_avg := some 104, price_low := none
    price_high := none, unit := some "index", price_per_ton := none
    conversion_factor := none, sample_size := some 1000
    notes := some "Price index (base=100), not actual price" }

theorem claim_C10_witness :
    (sampleMIRecord.source = "MI" ∧ sampleMIRecord.unit = some "index")
      ∧ ((convertRecord sampleMIRecord).source = "MI"
          ∧ (convertRecord sampleMIRecord).unit = some "index"
          ∧ (convertRecord sampleMIRecord).conversion_factor = none
          ∧ (convertRecord sampleMIRecord).price_per_ton = none) :=
  ⟨(claim_C10_michigan_index [sampleMIRow]).1 sampleMIRecord (by decide),
    (claim_C10_michigan_index [sampleMIRow]).2 (convertRecord sampleMIRecord) (by decide)⟩

/-! ## Claim C4 -/

/-- Provenance of the `unit` field in the unified dataset of
combine_stumpage_data.py: every adapter either applies `standardize_unit`
to source text (possibly absent), or sets the constant `$/cord` (Wisconsin)
or `index` (Michigan). -/
def adapterUnit (u : Option String) : Prop :=
  (∃ x : Option String, u = standardize_unit x) ∨ u = some "$/cord" ∨ u = some "index"

theorem adapter_ton_iff (u : Option String) (h : adapterUnit u) :
    containsStr (unitLowered u) "ton" = true ↔ u = some "$/ton" := by
  rcases h with ⟨x, rfl⟩ | rfl | rfl
  · match x with
    | none => decide
    | some s =>
      simp only [standardize_unit]
      split_ifs with h1 h2 h3
      · decide
      · decide
      · decide
      · constructor
        · intro hc
          have hl : lowerStr (trimStr (lowerStr s)) = trimStr (lowerStr s) := by
            have := lowerStr_normText s
            simpa [normText] using this
          rw [unitLowered, hl] at hc
          exact absurd hc h3
        · intro he
          have : trimStr (lowerStr s) = "$/ton" := Option.some.inj he
          rw [this] at h3
          exact absurd (by decide) h3
  · decide
  · decide

/-- Claim C4: in the unified dataset, a `$/ton` unit forces conversion
factor 1.0 and `price_per_ton = price_avg`; conversely, among the unit
values the adapters can produce, factor 1.0 arises exactly for `$/ton`. -/
theorem claim_C4_ton_invariant (r : Record) (h : adapterUnit r.unit) :
    ((convertRecord r).conversion_factor = some 1 ↔ r.unit = some "$/ton")
      ∧ (r.unit = some "$/ton" → (convertRecord r).price_per_ton = r.price_avg) := by
  have hfac : r.unit = some "$/ton" → get_conversion_factor r = some 1 := by
    intro he
    simp only [get_conversion_factor, he]
    rw [if_pos (by decide)]
  constructor
  · rw [convertRecord_factor]
    constructor
    · intro hf
      by_contra hne
      have hton : containsStr (unitLowered r.unit) "ton" = false := by
        cases hcc : containsStr (unitLowered r.unit) "ton"
        · rfl
        · exact absurd ((adapter_ton_iff r.unit h).mp hcc) hne
      simp only [get_conversion_factor, hton] at hf
      rw [if_neg (by simp)] at hf
      split_ifs at hf
      · exact cord_factor_ne_one _ _ (Option.some.inj hf)
      · exact mbf_factor_ne_one _ _ (Option.some.inj hf)
    · intro he
      exact hfac he
  · intro he
    show convert_price { r with conversion_factor := get_conversion_factor r } = r.price_avg
    cases hpa : r.price_avg
    · simp [convert_price, hpa]
    · simp only [convert_price, hpa, hfac he]
      show (if containsStr (unitLowered r.unit) "ton" = true then _ else _) = _
      rw [he]
      rw [if_pos (by decide)]

/-- A `$/ton` record used to instantiate claim C4. -/
def sampleTonRecord : Record :=
  { source := "MS", year := 2019, quarter := some 2, period_type := "quarterly"
    region := some "Statewide", county := none, species := some "pine"
    product_type := some "sawtimber", price_avg := some 26, price_low := none
    price_high := none, unit := some "$/ton", price_per_ton := none
    conversion_factor := none, sample_size := none, notes := none }

theorem claim_C4_witness :
    ((convertRecord sampleTonRecord).conversion_factor = some 1
        ↔ sampleTonRecord.unit = some "$/ton")
      ∧ (sampleTonRecord.unit = some "$/ton" →
          (convertRecord sampleTonRecord).price_per_ton = sampleTonRecord.price_avg) :=
  claim_C4_ton_invariant sampleTonRecord (Or.inl ⟨some "tons", by decide⟩)

/-! ## Claim C3 -/

/-- A record with a convertible unit but species text matching no species
group: the empty species string of the claim. -/
def sampleUnmatchedCordRecord : Record :=
  { source := "WI", year := 2018, quarter := none, period_type := "annual"
    region := some "Zone 1", county := none, species := some ""
    product_type := some "pulpwood", price_avg := some 28, price_low := none
    price_high := none, unit := some "$/cord", price_per_ton := none
    conversion_factor := none, sample_size := none, notes := none }

/-- Claim C3 is false on the code: for a `$/cord` record whose species text
(the empty string) resolves to no species group, the converter does not
return null — it applies the mixed-hardwood default 2.80 tons per cord and
produces `price_per_ton = 28 / 2.80 = 10`. -/
theorem claim_C3_counterexample :
    (convertRecord sampleUnmatchedCordRecord).conversion_factor = some (mkRat 28 10)
      ∧ (convertRecord sampleUnmatchedCordRecord).price_per_ton = some 10 := by
  constructor
  · decide
  · show convert_price
      { sampleUnmatchedCordRecord with
        conversion_factor := get_conversion_factor sampleUnmatchedCordRecord } = some 10
    rw [show get_conversion_factor sampleUnmatchedCordRecord = some (mkRat 28 10) by decide]
    show convert_price
      { sampleUnmatchedCordRecord with conversion_factor := some (mkRat 28 10) } = some 10
    have hstep : convert_price
        { sampleUnmatchedCordRecord with conversion_factor := some (mkRat 28 10) }
          = some ((28 : ℚ) / mkRat 28 10) := rfl
    rw [hstep]
    congr 1
    rw [Rat.mkRat_eq_div]
    norm_num

/-- Claim C3 amended: an unmatched species never yields null — the registry
falls back to the mixed-hardwood cord factor 2.80 and the hardwood-average
MBF factor 8.5; the converter returns null factor and null price exactly
when the unit itself is not convertible (its lowercased text contains none
of `ton`, `cord`, `mbf`), as with `index`. -/
theorem claim_C3_amended_default_factors :
    (∀ (s : String) (p : Option String),
      anyContains (lowerStr s) ["pine", "spruce", "fir", "hemlock", "cedar", "softwood"] = false →
      anyContains (lowerStr s) ["oak", "hickory", "beech", "hard maple", "sugar maple", "walnut", "cherry"] = false →
      anyContains (lowerStr s) ["poplar", "tulip", "sweetgum", "basswood", "soft maple", "aspen", "cottonwood"] = false →
      anyContains (lowerStr s) ["hardwood", "mixed", "ash", "birch", "elm"] = false →
      get_cord_to_ton_factor s p = mkRat 28 10)
    ∧ (∀ (s : String) (p : Option String),
        anyContains (lowerStr s) ["pine", "spruce", "fir", "hemlock", "cedar", "softwood"] = false →
        get_mbf_to_ton_factor s p = mkRat 17 2)
    ∧ (∀ r : Record,
        containsStr (unitLowered r.unit) "ton" = false →
        containsStr (unitLowered r.unit) "cord" = false →
        containsStr (unitLowered r.unit) "mbf" = false →
        (convertRecord r).conversion_factor = none ∧ (convertRecord r).price_per_ton = none) := by
  refine ⟨?_, ?_, ?_⟩
  · intro s p h1 h2 h3 h4
    simp only [get_cord_to_ton_factor, h1, h2, h3, h4]
    simp
  · intro s p h1
    simp only [get_mbf_to_ton_factor, h1]
    simp
  · intro r h1 h2 h3
    have hf : get_conversion_factor r = none := by
      simp only [get_conversion_factor, h1, h2, h3]
      split_ifs <;> simp_all
    refine ⟨hf, ?_⟩
    show convert_price { r with conversion_factor := get_conversion_factor r } = none
    rw [hf]
    cases hpa : r.price_avg <;> simp [convert_price, hpa]

/-- A record with an unconvertible unit, used to instantiate the amended
claim C3. -/
def sampleUnconvertibleRecord : Record :=
  { source := "PA", year := 2017, quarter := some 3, period_type := "quarterly"
    region := some "Northwest", county := none, species := some "red maple"
    product_type := some "sawtimber", price_avg := some 120, price_low := none
    price_high := none, unit := some "n/a", price_per_ton := none
    conversion_factor := none, sample_size := none, notes := none }

theorem claim_C3_amended_witness :
    get_cord_to_ton_factor "" none = mkRat 28 10
      ∧ get_mbf_to_ton_factor "" none = mkRat 17 2
      ∧ ((convertRecord sampleUnconvertibleRecord).conversion_factor = none
          ∧ (convertRecord sampleUnconvertibleRecord).price_per_ton = none) :=
  ⟨claim_C3_amended_default_factors.1 "" none (by decide) (by decide) (by decide) (by decide),
    claim_C3_amended_default_factors.2.1 "" none (by decide),
    claim_C3_amended_default_factors.2.2 sampleUnconvertibleRecord
      (by decide) (by decide) (by decide)⟩

/-! ## Claim C1 -/

/-- A fully populated record: all three price fields present. -/
def dupFullRecord : Record :=
  { source := "NY", year := 2015, quarter := some 1, period_type := "semi-annual"
    region := some "Adirondacks", county := none, species := some "red oak"
    product_type := some "sawtimber", price_avg := some 100, price_low := some 50
    price_high := some 150, unit := some "$/ton", price_per_ton := none
    conversion_factor := none, sample_size := none, notes := none }

/-- A record with the same uniqueness key as `dupFullRecord` but only one
non-null price field. -/
def dupSparseRecord : Record :=
  { source := "NY", year := 2015, quarter := some 1, period_type := "semi-annual"
    region := some "Adirondacks", county := none, species := some "red oak"
    product_type := some "sawtimber", price_avg := some 90, price_low := none
    price_high := none, unit := some "$/ton", price_per_ton := none
    conversion_factor := none, sample_size := none, notes := none }

/-- Claim C1 is false on the code: the unification engine of
combine_stumpage_data.py performs no deduplication, so two input records
sharing the `(source, year, quarter, region, species, product_type)` key
both appear in the unified dataset — the key occurs twice, and the record
with fewer non-null price fields is retained alongside the fuller one. -/
theorem claim_C1_counterexample :
    (unifyRecords [[dupFullRecord], [dupSparseRecord]]).countP
        (fun r => decide (recordKey r = recordKey dupFullRecord)) = 2
      ∧ (unifyRecords [[dupFullRecord], [dupSparseRecord]]).map priceFieldCount = [3, 1] := by
  decide

/-- USFS PNW records sharing the `(source, year, species, region)` key used
by integrate_usfs_pnw.py, with different price completeness. -/
def usfsFullRecord : Record :=
  { source := "WA_OR", year := 1990, quarter := none, period_type := "annual"
    region := some "Washington Oregon", county := none, species := some "douglas_fir"
    product_type := some "sawtimber", price_avg := some 300, price_low := some 200
    price_high := some 400, unit := some "$/MBF", price_per_ton := some 75
    conversion_factor := some 4, sample_size := none, notes := none }

/-- Same key as `usfsFullRecord`, only `price_avg` populated. -/
def usfsSparseRecord : Record :=
  { source := "WA_OR", year := 1990, quarter := none, period_type := "annual"
    region := some "Washington Oregon", county := none, species := some "douglas_fir"
    product_type := some "sawtimber", price_avg := some 280, price_low := none
    price_high := none, unit := some "$/MBF", price_per_ton := some 70
    conversion_factor := some 4, sample_size := none, notes := none }

/-- Claim C1 amended: the unification engine keeps every concatenated record
in order with its key unchanged (no deduplication on the uniqueness key);
only the USFS PNW integration deduplicates, on the coarser key
`(source, year, species, region)` keeping the last record in concatenation
order regardless of price-field completeness. -/
theorem claim_C1_amended_no_dedup :
    (∀ outs : List (List Record),
      (unifyRecords outs).map recordKey = outs.flatten.map recordKey)
      ∧ dedupKeepLast usfsKey [usfsFullRecord, usfsSparseRecord] = [usfsSparseRecord] := by
  constructor
  · intro outs
    rw [unify_eq_map, List.map_map]
    rfl
  · decide

/-! ## Claim C2 -/

/-- Claim C2 is false on the code: `standardize_product_type` is not
idempotent.  `fiber` normalizes to `fiber_fuel`, but a second application
matches the earlier fuel rule (`fuel` substring, no `chip`) and returns
`firewood`. -/
theorem claim_C2_counterexample :
    standardize_product_type (standardize_product_type (some "fiber"))
      ≠ standardize_product_type (some "fiber") := by decide

/-- Claim C2 amended: `standardize_unit` is idempotent on every input, while
`standardize_product_type` is not — its output `fiber_fuel` re-normalizes to
`firewood`. -/
theorem claim_C2_amended_idempotence :
    (∀ u : Option String, standardize_unit (standardize_unit u) = standardize_unit u)
      ∧ standardize_product_type (some "fiber") = some "fiber_fuel"
      ∧ standardize_product_type (some "fiber_fuel") = some "firewood" :=
  ⟨standardize_unit_idem, by decide, by decide⟩

/-! ## Claim C9 -/

/-- Claim C9 is false on the code: an unmatched input is not returned
unchanged — the functions return the lowercased, stripped text.
`Mystery_Product_XYZ` matches no rule yet comes back as
`mystery_product_xyz`. -/
theorem claim_C9_counterexample :
    productRuleMatches (normText "Mystery_Product_XYZ") = false
      ∧ standardize_product_type (some "Mystery_Product_XYZ")
          ≠ some "Mystery_Product_XYZ" := by decide

/-- Claim C9 amended: on input matching no normalization rule,
`standardize_product_type` and `standardize_unit` return the lowercased,
stripped input text (and never raise — both are total); the text is returned
unchanged exactly when the input is already lowercase and stripped, as with
already-normalized markers such as `index`. -/
theorem claim_C9_amended_passthrough :
    (∀ s, productRuleMatches (normText s) = false →
      standardize_product_type (some s) = some (normText s))
      ∧ (∀ s, unitRuleMatches (normText s) = false →
          standardize_unit (some s) = some (normText s))
      ∧ (∀ s, productRuleMatches s = false → normText s = s →
          standardize_product_type (some s) = some s)
      ∧ (∀ s, unitRuleMatches s = false → normText s = s →
          standardize_unit (some s) = some s) := by
  refine ⟨product_passthrough, unit_passthrough, ?_, ?_⟩
  · intro s h hn
    have := product_passthrough s (by rw [hn]; exact h)
    rwa [hn] at this
  · intro s h hn
    have := unit_passthrough s (by rw [hn]; exact h)
    rwa [hn] at this

theorem claim_C9_amended_witness :
    standardize_product_type (some "Mystery_Product_XYZ")
        = some (normText "Mystery_Product_XYZ")
      ∧ standardize_unit (some " Index ") = some (normText " Index ")
      ∧ standardize_product_type (some "mystery_product_xyz") = some "mystery_product_xyz"
      ∧ standardize_unit (some "index") = some "index" :=
  ⟨claim_C9_amended_passthrough.1 "Mystery_Product_XYZ" (by decide),
    claim_C9_amended_passthrough.2.1 " Index " (by decide),
    claim_C9_amended_passthrough.2.2.1 "mystery_product_xyz" (by decide) (by decide),
    claim_C9_amended_passthrough.2.2.2 "index" (by decide) (by decide)⟩

/-! ## Claim C6 -/

/-- Claim C6: a table none of whose cells matches a header keyword
(SPECIES, PRODUCT, LOW, HIGH, case-insensitive) yields zero data records;
`processTable` is a total function, so classification never raises and the
remaining tables of the document are still processed. -/
theorem claim_C6_no_header_rejected (table : List (List (Option String)))
    (h : ∀ row ∈ table, ∀ c ∈ row, headerCellB c = false) :
    processTable table = [] := by
  unfold processTable
  split_ifs with hlen
  · rfl
  · have hidx : table.findIdx? isHeaderRow = none := by
      rw [List.findIdx?_eq_none_iff]
      intro row hrow
      simp only [isHeaderRow, List.any_eq_false]
      intro c hc
      simp [h row hrow c hc]
    rw [hidx]

/-- A table with header-free rows used to instantiate claim C6. -/
def sampleHeaderlessTable : List (List (Option String)) :=
  [[some "Tree", some "Price"], [some "Pine", some "10.00", some "20.00"]]

theorem claim_C6_witness : processTable sampleHeaderlessTable = [] :=
  claim_C6_no_header_rejected sampleHeaderlessTable (by decide)

/-! ## Claim C7 -/

/-- The header row of the claim C7 scenario. -/
def sampleHeaderRow : List (Option String) :=
  [some "SPECIES", some "PRODUCT", some "LOW", some "HIGH", some "UNIT"]

/-- The five-cell data row of the claim C7 scenario. -/
def sampleWhiteOakRow : List (Option String) :=
  [some "White Oak", some "Sawlogs", some "250.00", some "350.00", some "MBF"]

/-- Claim C7: field extraction is positional and arity-dependent — the
5-cell example row after a header yields exactly the stated record; a 4-cell
row maps to species, low, high, unit with an empty product; a 3-cell row to
species, low, high with no unit; rows with fewer than 3 cells are
discarded. -/
theorem claim_C7_arity_dispatch :
    processTable [sampleHeaderRow, sampleWhiteOakRow]
        = [⟨"White Oak", "Sawlogs", some 250, some 350, "MBF"⟩]
      ∧ (∀ row : List (Option String), row.length < 3 → classifyRow row = none)
      ∧ (∀ c0 c1 c2 c3 rec, classifyRow [c0, c1, c2, c3] = some rec →
          rec.species = cellTrim c0 ∧ rec.product_type = ""
            ∧ rec.price_low = cellPrice c1 ∧ rec.price_high = cellPrice c2
            ∧ rec.unit = cellTrim c3)
      ∧ (∀ c0 c1 c2 rec, classifyRow [c0, c1, c2] = some rec →
          rec.species = cellTrim c0 ∧ rec.product_type = ""
            ∧ rec.price_low = cellPrice c1 ∧ rec.price_high = cellPrice c2
            ∧ rec.unit = "") := by
  refine ⟨by decide, ?_, ?_, ?_⟩
  · intro row h
    unfold classifyRow
    rw [if_pos h]
  · intro c0 c1 c2 c3 rec hc
    simp only [classifyRow, rowFields, List.length_cons, List.length_nil] at hc
    norm_num at hc
    obtain ⟨-, -, -, -, hrec⟩ := hc
    subst hrec
    exact ⟨rfl, rfl, rfl, rfl, rfl⟩
  · intro c0 c1 c2 rec hc
    simp only [classifyRow, rowFields, List.length_cons, List.length_nil] at hc
    norm_num at hc
    obtain ⟨-, -, -, -, hrec⟩ := hc
    subst hrec
    exact ⟨rfl, rfl, rfl, rfl, rfl⟩

theorem claim_C7_witness :
    classifyRow [some "Only", some "Two"] = none
      ∧ ((⟨"Pine", "", some 10, some 20, "Cord"⟩ : NHRecord).species = cellTrim (some "Pine")
        ∧ (⟨"Pine", "", some 10, some 20, "Cord"⟩ : NHRecord).product_type = ""
        ∧ (⟨"Pine", "", some 10, some 20, "Cord"⟩ : NHRecord).price_low = cellPrice (some "10.00")
        ∧ (⟨"Pine", "", some 10, some 20, "Cord"⟩ : NHRecord).price_high = cellPrice (some "20.00")
        ∧ (⟨"Pine", "", some 10, some 20, "Cord"⟩ : NHRecord).unit = cellTrim (some "Cord"))
      ∧ ((⟨"Pine", "", some 10, some 20, ""⟩ : NHRecord).species = cellTrim (some "Pine")
        ∧ (⟨"Pine", "", some 10, some 20, ""⟩ : NHRecord).product_type = ""
        ∧ (⟨"Pine", "", some 10, some 20, ""⟩ : NHRecord).price_low = cellPrice (some "10.00")
        ∧ (⟨"Pine", "", some 10, some 20, ""⟩ : NHRecord).price_high = cellPrice (some "20.00")
        ∧ (⟨"Pine", "", some 10, some 20, ""⟩ : NHRecord).unit = "") :=
  ⟨claim_C7_arity_dispatch.2.1 [some "Only", some "Two"] (by decide),
    claim_C7_arity_dispatch.2.2.1 (some "Pine") (some "10.00") (some "20.00") (some "Cord")
      ⟨"Pine", "", some 10, some 20, "Cord"⟩ (by decide),
    claim_C7_arity_dispatch.2.2.2 (some "Pine") (some "10.00") (some "20.00")
      ⟨"Pine", "", some 10, some 20, ""⟩ (by decide)⟩

/-! ## Claim C8 -/

/-- Claim C8: a data row whose two positional price cells both fail numeric
parsing is discarded outright, while a data row (one that passes the blank,
keyword and empty-species filters) with exactly one parsed price bound is
retained as a record. -/
theorem claim_C8_price_gate :
    (∀ row : List (Option String),
      (rowFields row).2.1 = none → (rowFields row).2.2.1 = none →
        classifyRow row = none)
      ∧ (∀ row : List (Option String),
          3 ≤ row.length → row.any cellTruthy = true → row.all blankB = false →
          keywordRowB (speciesOf row) = false → speciesOf row ≠ "" →
          ((rowFields row).2.1 = none ∧ (rowFields row).2.2.1 ≠ none)
            ∨ ((rowFields row).2.1 ≠ none ∧ (rowFields row).2.2.1 = none) →
          (classifyRow row).isSome = true) := by
  constructor
  · intro row hlo hhi
    simp only [classifyRow]
    split_ifs with h1 h2 h3 h4 h5 <;> try rfl
    exact absurd ⟨hlo, hhi⟩ h5
  · intro row hlen hany hall hkw hsp hone
    simp only [classifyRow]
    split_ifs with h1 h2 h3 h4
    · omega
    · rw [hany, hall] at h2
      exact Bool.noConfusion h2
    · rw [hkw] at h3
      exact Bool.noConfusion h3
    · rcases hone with ⟨ha, hb⟩ | ⟨ha, hb⟩
      · exact absurd h4.2 hb
      · exact absurd h4.1 ha
    · rfl

theorem claim_C8_witness :
    classifyRow [some "Pine", some "abc", some "xyz"] = none
      ∧ (classifyRow [some "Pine", some "10.50", some "n/a"]).isSome = true :=
  ⟨claim_C8_price_gate.1 [some "Pine", some "abc", some "xyz"] (by decide) (by decide),
    claim_C8_price_gate.2 [some "Pine", some "10.50", some "n/a"] (by decide) (by decide)
      (by decide) (by decide) (by decide) (Or.inr ⟨by decide, by decide⟩)⟩
